import Mathlib

/-!
A shallow embedding of `src/infra/ldap_handler.rs` from the lldap repository:
distinguished-name parsing, subtree matching, attribute projection, and the
per-connection LDAP operation handler (bind, search, whoami).

Strings are embedded as `List Char`, so that the semantics of Rust's
`str::split` (which yields one empty piece for the empty string) is modelled
exactly and is available to induction.  `anyhow::Result<T>` is embedded as
`Except (List Char) T` carrying the error message.
-/

namespace Lldap

/-- The splitting of a string (as a list of characters) on a separator
character, with Rust `str::split` semantics: the empty string yields one
empty piece, and `n` separators yield `n + 1` pieces. -/
def splitOnChar (sep : Char) : List Char → List (List Char)
  | [] => [[]]
  | c :: cs =>
    if c = sep then
      [] :: splitOnChar sep cs
    else
      match splitOnChar sep cs with
      | [] => [[c]]
      | r :: rs => (c :: r) :: rs

/-- Rust's `Iterator::collect::<Result<Vec<_>, _>>` applied to a mapped
iterator: apply `f` to each element left to right, stopping at the first
error; succeeds with the list of all results only when every call does. -/
def collectResults {α β ε : Type} (f : α → Except ε β) : List α → Except ε (List β)
  | [] => .ok []
  | a :: t =>
    match f a with
    | .error e => .error e
    | .ok b =>
      match collectResults f t with
      | .error e => .error e
      | .ok bs => .ok (b :: bs)

/-- `make_dn_pair` from `ldap_handler.rs`: consumes an iterator (here: the
list of `=`-separated pieces of one DN component) and requires exactly two
elements, giving the `(type, value)` pair; fewer or more is an error. -/
def make_dn_pair (iter : List (List Char)) : Except (List Char) (List Char × List Char) :=
  match iter with
  | [] => .error ("Empty DN element".toList)
  | [_] => .error ("Missing DN value".toList)
  | [a, b] => .ok (a, b)
  | a :: b :: e :: _ =>
    .error ("Too many elements in distinguished name: ".toList ++ a ++ b ++ e)

/-- `parse_distinguished_name` from `ldap_handler.rs`: split on `,`, then
split each component on `=` and form its pair; the first failing component
aborts the whole parse. -/
def parse_distinguished_name (dn : List Char) :
    Except (List Char) (List (List Char × List Char)) :=
  collectResults (fun s => make_dn_pair (splitOnChar '=' s)) (splitOnChar ',' dn)

/-- The user record consumed by the handler (from `domain/handler.rs`,
as used by `ldap_handler.rs`; the creation date is never read by the core). -/
structure User where
  user_id : List Char
  email : List Char
  display_name : List Char
  first_name : List Char
  last_name : List Char
  creation_date : Int
deriving DecidableEq, Repr

/-- `get_attribute` from `ldap_handler.rs`: the fixed, case-sensitive
projection of a user record onto one requested LDAP attribute name. -/
def get_attribute (user : User) (attribute_name : List Char) :
    Except (List Char) (List (List Char)) :=
  if attribute_name = "objectClass".toList then
    .ok ["inetOrgPerson".toList, "posixAccount".toList, "mailAccount".toList]
  else if attribute_name = "uid".toList then .ok [user.user_id]
  else if attribute_name = "mail".toList then .ok [user.email]
  else if attribute_name = "givenName".toList then .ok [user.first_name]
  else if attribute_name = "sn".toList then .ok [user.last_name]
  else if attribute_name = "cn".toList then .ok [user.display_name]
  else .error ("Unsupported attribute: ".toList ++ attribute_name)

/-- One attribute of a search result entry, from the `ldap3_server` wire
types used by the handler: a type name and its values. -/
structure LdapPartialAttribute where
  atype : List Char
  vals : List (List Char)
deriving DecidableEq, Repr

/-- A search result entry, from the `ldap3_server` wire types used by the
handler: an entry DN and its attributes. -/
structure LdapSearchResultEntry where
  dn : List Char
  attributes : List LdapPartialAttribute
deriving DecidableEq, Repr

/-- `make_ldap_search_result_entry` from `ldap_handler.rs`: entry DN is
`cn=<user_id>,<base_dn_str>`; the attributes are the one-to-one projection
of the requested names through `get_attribute`, failing on the first
unsupported name. -/
def make_ldap_search_result_entry (user : User) (base_dn_str : List Char)
    (attributes : List (List Char)) : Except (List Char) LdapSearchResultEntry :=
  match collectResults (fun a =>
      (get_attribute user a).map (fun vals => LdapPartialAttribute.mk a vals)) attributes with
  | .error e => .error e
  | .ok attrs =>
    .ok (LdapSearchResultEntry.mk
      ("cn=".toList ++ user.user_id ++ ",".toList ++ base_dn_str) attrs)

/-- `is_subtree` from `ldap_handler.rs`: false when the candidate is shorter
than the base; otherwise the loop checks `subtree[size_diff + i] == base_tree[i]`
for every `i` below the base's length. -/
def is_subtree (subtree : List (List Char × List Char))
    (base_tree : List (List Char × List Char)) : Bool :=
  if subtree.length < base_tree.length then
    false
  else
    let size_diff := subtree.length - base_tree.length
    (List.range base_tree.length).all (fun i => subtree[size_diff + i]? = base_tree[i]?)

/-- The result codes of the responses the handler emits, from the
`LdapResultCode` values it uses (spec section 6 taxonomy). -/
inductive LdapResultCode where
  | Success
  | InvalidCredentials
  | OperationsError
  | Other
  | NoSuchAttribute
deriving DecidableEq, Repr

/-- One outgoing LDAP message, modelling the `ldap3_server` message
constructors the handler calls: either a result with a code and a
diagnostic/payload text, or a search result entry. -/
inductive LdapMsg where
  | result (code : LdapResultCode) (message : List Char)
  | searchResultEntry (entry : LdapSearchResultEntry)
deriving DecidableEq, Repr

/-- `BindRequest` from `domain/handler.rs`. -/
structure BindRequest where
  name : List Char
  password : List Char
deriving DecidableEq, Repr

/-- `ListUsersRequest` from `domain/handler.rs` (no fields are read). -/
structure ListUsersRequest where
deriving DecidableEq, Repr

/-- The backend capability interface (`BackendHandler`): `bind` validates
credentials, `list_users` returns all users; both fallible. -/
structure BackendHandler where
  bind : BindRequest → Except (List Char) Unit
  list_users : ListUsersRequest → Except (List Char) (List User)

/-- `SimpleBindRequest` from the `ldap3_server` wire types. -/
structure SimpleBindRequest where
  msgid : Nat
  dn : List Char
  pw : List Char

/-- `SearchRequest` from the `ldap3_server` wire types: scope and filter are
accepted but never read by the handler, so only base and attributes are
modelled. -/
structure SearchRequest where
  msgid : Nat
  base : List Char
  attrs : List (List Char)

/-- `WhoamiRequest` from the `ldap3_server` wire types. -/
structure WhoamiRequest where
  msgid : Nat

/-- `SimpleBindRequest::gen_success` of `ldap3_server`: a success result
with no diagnostic text. -/
def SimpleBindRequest.gen_success (_sbr : SimpleBindRequest) : LdapMsg :=
  .result .Success []

/-- `SimpleBindRequest::gen_invalid_cred` of `ldap3_server`: an
invalid-credentials result with no diagnostic text. -/
def SimpleBindRequest.gen_invalid_cred (_sbr : SimpleBindRequest) : LdapMsg :=
  .result .InvalidCredentials []

/-- `SearchRequest::gen_error` of `ldap3_server`: a result with the given
code and diagnostic text. -/
def SearchRequest.gen_error (_lsr : SearchRequest) (code : LdapResultCode)
    (msg : List Char) : LdapMsg :=
  .result code msg

/-- `SearchRequest::gen_success` of `ldap3_server`: a success result with no
diagnostic text. -/
def SearchRequest.gen_success (_lsr : SearchRequest) : LdapMsg :=
  .result .Success []

/-- `SearchRequest::gen_result_entry` of `ldap3_server`: wraps one search
result entry as a message. -/
def SearchRequest.gen_result_entry (_lsr : SearchRequest)
    (entry : LdapSearchResultEntry) : LdapMsg :=
  .searchResultEntry entry

/-- `WhoamiRequest::gen_operror` of `ldap3_server`: an operations-error
result with the given diagnostic text. -/
def WhoamiRequest.gen_operror (_wr : WhoamiRequest) (msg : List Char) : LdapMsg :=
  .result .OperationsError msg

/-- `WhoamiRequest::gen_success` of `ldap3_server`: a success result with
the given payload text. -/
def WhoamiRequest.gen_success (_wr : WhoamiRequest) (msg : List Char) : LdapMsg :=
  .result .Success msg

/-- The handler state (`LdapHandler`): the authentication state string `dn`
(the sentinel `"Unauthenticated"` or the bound principal name), the backend,
the parsed configured base DN, and its original text. -/
structure LdapHandler where
  dn : List Char
  backend_handler : BackendHandler
  base_dn : List (List Char × List Char)
  base_dn_str : List Char

/-- `LdapHandler::new`: parses the configured base DN; the source panics on
an invalid configuration, embedded as `none`. -/
def LdapHandler.new (backend_handler : BackendHandler) (ldap_base_dn : List Char) :
    Option LdapHandler :=
  match parse_distinguished_name ldap_base_dn with
  | .ok base => some ⟨"Unauthenticated".toList, backend_handler, base, ldap_base_dn⟩
  | .error _ => none

/-- `LdapHandler::do_bind`: on backend success, set `dn` to the requested
name and answer success; on any backend error, leave the state unchanged and
answer invalid-credentials. Returns the updated handler with the message. -/
def LdapHandler.do_bind (self : LdapHandler) (sbr : SimpleBindRequest) :
    LdapHandler × LdapMsg :=
  match self.backend_handler.bind (BindRequest.mk sbr.dn sbr.pw) with
  | .ok () => ({ self with dn := sbr.dn }, sbr.gen_success)
  | .error _ => (self, sbr.gen_invalid_cred)

/-- `LdapHandler::do_search`: parse the base (operations error on failure);
empty success if outside the configured base; list users (other error on
failure); then one entry message per user followed by a success, all
replaced by a single no-such-attribute error if any entry construction
fails.  The handler state is never written, so only the messages are
returned. -/
def LdapHandler.do_search (self : LdapHandler) (lsr : SearchRequest) : List LdapMsg :=
  match parse_distinguished_name lsr.base with
  | .error _ =>
    [lsr.gen_error .OperationsError
      ("Could not parse base DN: \"".toList ++ lsr.base ++ "\"".toList)]
  | .ok dn_parts =>
    if !is_subtree dn_parts self.base_dn then
      [lsr.gen_success]
    else
      match self.backend_handler.list_users (ListUsersRequest.mk) with
      | .error e =>
        [lsr.gen_error .Other
          ("Error during search for \"".toList ++ lsr.base ++ "\": ".toList ++ e)]
      | .ok users =>
        match collectResults (fun u =>
            (make_ldap_search_result_entry u self.base_dn_str lsr.attrs).map
              lsr.gen_result_entry) users with
        | .ok msgs => msgs ++ [lsr.gen_success]
        | .error e => [lsr.gen_error .NoSuchAttribute e]

/-- `LdapHandler::do_whoami`: operations error with reason
`"Unauthenticated"` when the state string is the sentinel, else success with
payload `"dn: " ++ dn`. -/
def LdapHandler.do_whoami (self : LdapHandler) (wr : WhoamiRequest) : LdapMsg :=
  if self.dn = "Unauthenticated".toList then
    wr.gen_operror ("Unauthenticated".toList)
  else
    wr.gen_success ("dn: ".toList ++ self.dn)

/-- The fixed projectable attribute set: the six names `get_attribute`
recognises. -/
def projectableAttributes : List (List Char) :=
  ["objectClass".toList, "uid".toList, "mail".toList, "givenName".toList,
   "sn".toList, "cn".toList]

/-- The fixed attribute mapping as the spec states it (section 4.3:
`objectClass → [inetOrgPerson, posixAccount, mailAccount]`, `uid → [id]`,
`mail → [email]`, `givenName → [first_name]`, `sn → [last_name]`,
`cn → [display_name]`), written from the spec's words for comparison with
the source's `get_attribute`. -/
def specAttributeMapping (u : User) (a : List Char) : List (List Char) :=
  if a = "objectClass".toList then
    ["inetOrgPerson".toList, "posixAccount".toList, "mailAccount".toList]
  else if a = "uid".toList then [u.user_id]
  else if a = "mail".toList then [u.email]
  else if a = "givenName".toList then [u.first_name]
  else if a = "sn".toList then [u.last_name]
  else if a = "cn".toList then [u.display_name]
  else []

/-! ### Concrete fixtures, taken from the repository's own test data -/

/-- First test user of the repository's `test_search`. -/
def bobUser : User :=
  ⟨"bob_1".toList, "bob@bobmail.bob".toList, "Bôb Böbberson".toList,
   "Bôb".toList, "Böbberson".toList, 1000000000⟩

/-- Second test user of the repository's `test_search`. -/
def jimUser : User :=
  ⟨"jim".toList, "jim@cricket.jim".toList, "Jimminy Cricket".toList,
   "Jim".toList, "Cricket".toList, 1003000000⟩

/-- A backend that accepts every bind and lists the two test users. -/
def okBackend : BackendHandler :=
  ⟨fun _ => .ok (), fun _ => .ok [bobUser, jimUser]⟩

/-- A backend that rejects every bind and fails every listing. -/
def failBackend : BackendHandler :=
  ⟨fun _ => .error ("Authentication error".toList),
   fun _ => .error ("Internal error".toList)⟩

/-- A backend that accepts every bind and lists no users. -/
def emptyBackend : BackendHandler :=
  ⟨fun _ => .ok (), fun _ => .ok []⟩

/-- The parsed form of the configured base `dc=example,dc=com`. -/
def exampleBaseDn : List (List Char × List Char) :=
  [("dc".toList, "example".toList), ("dc".toList, "com".toList)]

/-- A freshly constructed handler over `okBackend` with base
`dc=example,dc=com`. -/
def testHandler : LdapHandler :=
  ⟨"Unauthenticated".toList, okBackend, exampleBaseDn, "dc=example,dc=com".toList⟩

/-- A freshly constructed handler over `failBackend` with base
`dc=example,dc=com`. -/
def failHandler : LdapHandler :=
  ⟨"Unauthenticated".toList, failBackend, exampleBaseDn, "dc=example,dc=com".toList⟩

/-- A freshly constructed handler over `emptyBackend` with base
`dc=example,dc=com`. -/
def emptyHandler : LdapHandler :=
  ⟨"Unauthenticated".toList, emptyBackend, exampleBaseDn, "dc=example,dc=com".toList⟩

/-- The search base used by the repository's `test_search`. -/
def peopleBase : List Char := "ou=people,dc=example,dc=com".toList

/-- The parsed form of `peopleBase`. -/
def peopleDnParts : List (List Char × List Char) :=
  [("ou".toList, "people".toList), ("dc".toList, "example".toList),
   ("dc".toList, "com".toList)]

/-! ### Helper lemmas about the embedded primitives -/

/-- Collecting stops at an error in head position. -/
theorem collectResults_cons_error {α β ε : Type} (f : α → Except ε β) {a : α}
    {t : List α} {e : ε} (h : f a = .error e) :
    collectResults f (a :: t) = .error e := by
  simp [collectResults, h]

/-- When every element maps to a success, collecting yields the mapped list. -/
theorem collectResults_ok_map {α β ε : Type} (f : α → Except ε β) (g : α → β) :
    ∀ l : List α, (∀ a ∈ l, f a = .ok (g a)) → collectResults f l = .ok (l.map g) := by
  intro l
  induction l with
  | nil => intro _; rfl
  | cons a t ih =>
    intro h
    have ha : f a = .ok (g a) := h a (by simp)
    have ht : collectResults f t = .ok (t.map g) := ih (fun b hb => h b (by simp [hb]))
    simp [collectResults, ha, ht]

/-- If some element maps to an error, collecting yields an error. -/
theorem collectResults_error_of_mem {α β ε : Type} (f : α → Except ε β) {a : α}
    {l : List α} (ha : a ∈ l) {e : ε} (he : f a = .error e) :
    ∃ e2, collectResults f l = .error e2 := by
  induction l with
  | nil => cases ha
  | cons b t ih =>
    rcases List.mem_cons.mp ha with rfl | hat
    · exact ⟨e, by simp [collectResults, he]⟩
    · match hb : f b with
      | .error eb => exact ⟨eb, by simp [collectResults, hb]⟩
      | .ok y =>
        obtain ⟨e2, h2⟩ := ih hat
        exact ⟨e2, by simp [collectResults, hb, h2]⟩

/-- Splitting never produces an empty list of pieces. -/
theorem splitOnChar_ne_nil (sep : Char) (s : List Char) : splitOnChar sep s ≠ [] := by
  cases s with
  | nil => simp [splitOnChar]
  | cons c cs =>
    simp only [splitOnChar]
    by_cases h : c = sep
    · simp [h]
    · simp only [if_neg h]
      cases splitOnChar sep cs <;> simp

/-- The number of pieces is the number of separators plus one. -/
theorem length_splitOnChar (sep : Char) (s : List Char) :
    (splitOnChar sep s).length = s.count sep + 1 := by
  induction s with
  | nil => rfl
  | cons c cs ih =>
    simp only [splitOnChar]
    by_cases h : c = sep
    · simp [h, List.count_cons, ih]
    · have hne := splitOnChar_ne_nil sep cs
      match hsp : splitOnChar sep cs with
      | [] => exact absurd hsp hne
      | r :: rs =>
        rw [hsp] at ih
        simp only [if_neg h, List.length_cons] at ih ⊢
        simp [List.count_cons, h, ih]

/-- `make_dn_pair` fails exactly when the component does not have two
pieces. -/
theorem make_dn_pair_error_of_length_ne_two (l : List (List Char)) (h : l.length ≠ 2) :
    ∃ e, make_dn_pair l = .error e := by
  match l with
  | [] => exact ⟨_, rfl⟩
  | [_] => exact ⟨_, rfl⟩
  | [_, _] => simp at h
  | _ :: _ :: _ :: _ => exact ⟨_, rfl⟩

/-- Characterisation of `is_subtree`: the base must fit, and the trailing
components of the candidate must equal the base. -/
theorem is_subtree_iff (c b : List (List Char × List Char)) :
    is_subtree c b = true ↔ b.length ≤ c.length ∧ c.drop (c.length - b.length) = b := by
  unfold is_subtree
  by_cases hlt : c.length < b.length
  · simp only [if_pos hlt, Bool.false_eq_true, false_iff, not_and]
    intro hle
    omega
  · simp only [if_neg hlt]
    push_neg at hlt
    have hd : (c.drop (c.length - b.length)).length = b.length := by
      simp only [List.length_drop]
      omega
    constructor
    · intro h
      refine ⟨hlt, ?_⟩
      have hall := List.all_eq_true.mp h
      apply List.ext_getElem?
      intro n
      by_cases hn : n < b.length
      · have hx := of_decide_eq_true (hall n (List.mem_range.mpr hn))
        rw [List.getElem?_drop]
        exact hx
      · rw [List.getElem?_eq_none (le_of_not_lt (by rw [hd]; exact hn)),
          List.getElem?_eq_none (le_of_not_lt hn)]
    · rintro ⟨-, hdrop⟩
      apply List.all_eq_true.mpr
      intro i hi
      apply decide_eq_true
      rw [← List.getElem?_drop, hdrop]

/-- On the six projectable names, `get_attribute` succeeds with exactly the
mapping the spec states. -/
theorem get_attribute_ok_of_mem (u : User) (a : List Char)
    (ha : a ∈ projectableAttributes) :
    get_attribute u a = .ok (specAttributeMapping u a) := by
  simp only [projectableAttributes, List.mem_cons, List.not_mem_nil, or_false] at ha
  rcases ha with rfl | rfl | rfl | rfl | rfl | rfl <;> rfl

/-- Outside the projectable set, `get_attribute` fails with the unsupported
attribute message. -/
theorem get_attribute_error_of_not_mem (u : User) (a : List Char)
    (ha : a ∉ projectableAttributes) :
    get_attribute u a = .error ("Unsupported attribute: ".toList ++ a) := by
  simp only [projectableAttributes, List.mem_cons, List.not_mem_nil, or_false,
    not_or] at ha
  obtain ⟨h1, h2, h3, h4, h5, h6⟩ := ha
  simp only [get_attribute, if_neg h1, if_neg h2, if_neg h3, if_neg h4, if_neg h5,
    if_neg h6]

/-- When every requested name is projectable, entry construction succeeds
with the entry the spec describes. -/
theorem make_ldap_search_result_entry_ok (u : User) (b : List Char)
    (attrs : List (List Char)) (h : ∀ a ∈ attrs, a ∈ projectableAttributes) :
    make_ldap_search_result_entry u b attrs =
      .ok ⟨"cn=".toList ++ u.user_id ++ ",".toList ++ b,
           attrs.map (fun a => ⟨a, specAttributeMapping u a⟩)⟩ := by
  have hc := collectResults_ok_map
    (fun a => (get_attribute u a).map (fun vals => LdapPartialAttribute.mk a vals))
    (fun a => LdapPartialAttribute.mk a (specAttributeMapping u a)) attrs
    (fun a ha => by simp [get_attribute_ok_of_mem u a (h a ha), Except.map])
  simp [make_ldap_search_result_entry, hc]

/-- When some requested name is not projectable, entry construction fails. -/
theorem make_ldap_search_result_entry_error (u : User) (b : List Char)
    (attrs : List (List Char)) (a : List Char) (ha : a ∈ attrs)
    (hbad : a ∉ projectableAttributes) :
    ∃ e, make_ldap_search_result_entry u b attrs = .error e := by
  obtain ⟨e2, h2⟩ := collectResults_error_of_mem
    (fun x => (get_attribute u x).map (fun vals => LdapPartialAttribute.mk x vals))
    ha (e := "Unsupported attribute: ".toList ++ a)
    (by simp [get_attribute_error_of_not_mem u a hbad, Except.map])
  exact ⟨e2, by simp [make_ldap_search_result_entry, h2]⟩

/-! ### Claims -/

/-- C2, counterexample: `parse_distinguished_name` on the empty string does
not return a successful zero-length result. -/
theorem C2_counterexample :
    parse_distinguished_name "".toList ≠ Except.ok [] := by
  rw [show parse_distinguished_name "".toList =
    Except.error ("Missing DN value".toList) from rfl]
  simp

/-- C2, amended: `parse_distinguished_name` on the empty string returns a
parse error ("Missing DN value"): splitting the empty string yields one
empty component, which has no `=`. -/
theorem C2_amended_empty_dn_is_error :
    parse_distinguished_name "".toList = Except.error ("Missing DN value".toList) := rfl

/-- C5: whenever the backend's bind fails, `do_bind` answers a single
invalid-credentials response carrying no detail of the backend error, and
the handler state is unchanged. -/
theorem C5_bind_error_uniform (self : LdapHandler) (sbr : SimpleBindRequest)
    (e : List Char)
    (h : self.backend_handler.bind (BindRequest.mk sbr.dn sbr.pw) = .error e) :
    self.do_bind sbr = (self, LdapMsg.result .InvalidCredentials []) := by
  simp [LdapHandler.do_bind, h, SimpleBindRequest.gen_invalid_cred]

/-- C5, witness: the rejecting backend makes `do_bind` answer
invalid-credentials and leave the handler untouched. -/
theorem C5_witness :
    failHandler.backend_handler.bind (BindRequest.mk "test".toList "pass".toList) =
      .error ("Authentication error".toList) ∧
    failHandler.do_bind ⟨1, "test".toList, "pass".toList⟩ =
      (failHandler, LdapMsg.result .InvalidCredentials []) :=
  ⟨rfl, C5_bind_error_uniform failHandler ⟨1, "test".toList, "pass".toList⟩
    ("Authentication error".toList) rfl⟩

/-- C6: a base DN that parses but is not a subtree of the configured base
makes `do_search` answer exactly one empty success, for every backend. -/
theorem C6_out_of_scope_search (self : LdapHandler) (lsr : SearchRequest)
    (dn_parts : List (List Char × List Char))
    (hparse : parse_distinguished_name lsr.base = .ok dn_parts)
    (hsub : is_subtree dn_parts self.base_dn = false) :
    self.do_search lsr = [LdapMsg.result .Success []] := by
  simp [LdapHandler.do_search, hparse, hsub, SearchRequest.gen_success]

/-- C6, witness: searching `dc=other,dc=org` against a server configured
with `dc=example,dc=com` yields one success message. -/
theorem C6_witness :
    (parse_distinguished_name "dc=other,dc=org".toList =
      .ok [("dc".toList, "other".toList), ("dc".toList, "org".toList)] ∧
     is_subtree [("dc".toList, "other".toList), ("dc".toList, "org".toList)]
       testHandler.base_dn = false) ∧
    testHandler.do_search ⟨2, "dc=other,dc=org".toList, []⟩ =
      [LdapMsg.result .Success []] :=
  ⟨⟨rfl, rfl⟩,
   C6_out_of_scope_search testHandler ⟨2, "dc=other,dc=org".toList, []⟩
     [("dc".toList, "other".toList), ("dc".toList, "org".toList)] rfl rfl⟩

/-- C7: `is_subtree candidate base` holds iff the candidate is at least as
long as the base and its trailing `base.length` components equal the base;
a shorter candidate is never a subtree, the empty base matches every
candidate, and a non-empty base never matches the empty candidate. -/
theorem C7_is_subtree_characterisation (c b : List (List Char × List Char)) :
    (is_subtree c b = true ↔
      b.length ≤ c.length ∧ c.drop (c.length - b.length) = b) ∧
    (c.length < b.length → is_subtree c b = false) ∧
    is_subtree c [] = true ∧
    (b ≠ [] → is_subtree [] b = false) := by
  refine ⟨is_subtree_iff c b, ?_, ?_, ?_⟩
  · intro hlt
    cases h : is_subtree c b with
    | false => rfl
    | true =>
      have := ((is_subtree_iff c b).mp h).1
      omega
  · exact (is_subtree_iff c []).mpr ⟨Nat.zero_le _, by simp⟩
  · intro hb
    cases h : is_subtree [] b with
    | false => rfl
    | true =>
      have := ((is_subtree_iff [] b).mp h).1
      have : b = [] := List.length_eq_zero.mp (by simpa using this)
      exact absurd this hb

/-- C7, witness: the characterisation applied to the empty candidate versus
the configured base, and to a candidate versus the empty base. -/
theorem C7_witness :
    is_subtree [] exampleBaseDn = false ∧ is_subtree exampleBaseDn [] = true :=
  ⟨(C7_is_subtree_characterisation [] exampleBaseDn).2.1 (by decide),
   (C7_is_subtree_characterisation exampleBaseDn []).2.2.1⟩

/-- C8: a DN text with a component holding no `=` or two or more `=` (not
exactly one) is rejected wholesale by `parse_distinguished_name`. -/
theorem C8_malformed_component_rejected (dn c : List Char)
    (hc : c ∈ splitOnChar ',' dn) (hbad : c.count '=' ≠ 1) :
    ∃ e, parse_distinguished_name dn = .error e := by
  have hlen : (splitOnChar '=' c).length ≠ 2 := by
    rw [length_splitOnChar]
    omega
  obtain ⟨e, he⟩ := make_dn_pair_error_of_length_ne_two (splitOnChar '=' c) hlen
  simpa [parse_distinguished_name] using
    collectResults_error_of_mem (fun s => make_dn_pair (splitOnChar '=' s)) hc he

/-- C8, witness: `"cn=a=b"` is one component with two `=` and fails to
parse; so does `"cn"` with none. -/
theorem C8_witness :
    ("cn=a=b".toList ∈ splitOnChar ',' "cn=a=b".toList ∧
      ("cn=a=b".toList.count '=') ≠ 1) ∧
    (∃ e, parse_distinguished_name "cn=a=b".toList = .error e) :=
  ⟨⟨by decide, by decide⟩,
   C8_malformed_component_rejected "cn=a=b".toList "cn=a=b".toList
     (by decide) (by decide)⟩

/-- C9: `is_subtree` is reflexive, including on the empty DN. -/
theorem C9_is_subtree_refl (x : List (List Char × List Char)) :
    is_subtree x x = true :=
  (is_subtree_iff x x).mpr ⟨le_refl _, by simp⟩

/-- C10: an in-scope search over a backend listing no users answers a
single success, with no constraint on the requested attribute names: the
no-such-attribute error can only arise from constructing a user entry. -/
theorem C10_empty_user_list (self : LdapHandler) (lsr : SearchRequest)
    (dn_parts : List (List Char × List Char))
    (hparse : parse_distinguished_name lsr.base = .ok dn_parts)
    (hsub : is_subtree dn_parts self.base_dn = true)
    (husers : self.backend_handler.list_users ⟨⟩ = .ok []) :
    self.do_search lsr = [LdapMsg.result .Success []] := by
  simp [LdapHandler.do_search, hparse, hsub, husers, collectResults,
    SearchRequest.gen_success]

/-- C10, witness: the empty-list backend answers success even though
`telephoneNumber` is requested, which is not projectable. -/
theorem C10_witness :
    (parse_distinguished_name peopleBase = .ok peopleDnParts ∧
     is_subtree peopleDnParts emptyHandler.base_dn = true ∧
     emptyHandler.backend_handler.list_users ⟨⟩ = .ok [] ∧
     "telephoneNumber".toList ∉ projectableAttributes) ∧
    emptyHandler.do_search ⟨2, peopleBase, ["telephoneNumber".toList]⟩ =
      [LdapMsg.result .Success []] :=
  ⟨⟨rfl, rfl, rfl, by decide⟩,
   C10_empty_user_list emptyHandler ⟨2, peopleBase, ["telephoneNumber".toList]⟩
     peopleDnParts rfl rfl rfl⟩

/-- C1, counterexample: with a backend accepting every credential, binding
as the literal principal `"Unauthenticated"` succeeds, yet the following
whoami answers the operations error, not `"dn: Unauthenticated"`: the state
is the string sentinel, not a tagged `Bound` value. -/
theorem C1_counterexample :
    (testHandler.do_bind ⟨1, "Unauthenticated".toList, "pass".toList⟩).2 =
      LdapMsg.result .Success [] ∧
    (testHandler.do_bind ⟨1, "Unauthenticated".toList, "pass".toList⟩).1.do_whoami ⟨2⟩ =
      LdapMsg.result .OperationsError ("Unauthenticated".toList) ∧
    (testHandler.do_bind ⟨1, "Unauthenticated".toList, "pass".toList⟩).1.do_whoami ⟨2⟩ ≠
      LdapMsg.result .Success ("dn: ".toList ++ "Unauthenticated".toList) := by
  refine ⟨rfl, rfl, ?_⟩
  rw [show (testHandler.do_bind ⟨1, "Unauthenticated".toList, "pass".toList⟩).1.do_whoami ⟨2⟩ =
    LdapMsg.result .OperationsError ("Unauthenticated".toList) from rfl]
  simp

/-- C1, amended: for every principal name other than the literal string
`"Unauthenticated"`, a bind the backend accepts succeeds, stores the name as
the handler's state, and a later whoami answers success with payload
`"dn: " ++ name`; for the name `"Unauthenticated"` the stored state
coincides with the sentinel and whoami reports the connection as
unauthenticated. -/
theorem C1_amended_bind_then_whoami (self : LdapHandler) (sbr : SimpleBindRequest)
    (wr : WhoamiRequest)
    (hbind : self.backend_handler.bind (BindRequest.mk sbr.dn sbr.pw) = .ok ())
    (hname : sbr.dn ≠ "Unauthenticated".toList) :
    (self.do_bind sbr).1.dn = sbr.dn ∧
    (self.do_bind sbr).2 = LdapMsg.result .Success [] ∧
    (self.do_bind sbr).1.do_whoami wr =
      LdapMsg.result .Success ("dn: ".toList ++ sbr.dn) := by
  have hb : self.do_bind sbr =
      ({ self with dn := sbr.dn }, LdapMsg.result .Success []) := by
    simp [LdapHandler.do_bind, hbind, SimpleBindRequest.gen_success]
  refine ⟨by rw [hb], by rw [hb], ?_⟩
  rw [hb]
  simp only [LdapHandler.do_whoami]
  rw [if_neg hname]
  rfl

/-- C1, witness: binding as `"test"` against the accepting backend, then
whoami answers `"dn: test"`. -/
theorem C1_witness :
    (testHandler.backend_handler.bind (BindRequest.mk "test".toList "pass".toList) =
       .ok () ∧
     "test".toList ≠ "Unauthenticated".toList) ∧
    ((testHandler.do_bind ⟨1, "test".toList, "pass".toList⟩).1.dn = "test".toList ∧
     (testHandler.do_bind ⟨1, "test".toList, "pass".toList⟩).2 =
       LdapMsg.result .Success [] ∧
     (testHandler.do_bind ⟨1, "test".toList, "pass".toList⟩).1.do_whoami ⟨3⟩ =
       LdapMsg.result .Success ("dn: ".toList ++ "test".toList)) :=
  ⟨⟨rfl, by decide⟩,
   C1_amended_bind_then_whoami testHandler ⟨1, "test".toList, "pass".toList⟩ ⟨3⟩
     rfl (by decide)⟩

/-- C3: an in-scope search whose requested attributes are all projectable
answers one result-entry message per backend user, in backend order, each
with DN `cn=<user_id>,<raw configured base text>` and the requested names
projected one-to-one in request order through the fixed mapping, followed
by exactly one success message. -/
theorem C3_search_success (self : LdapHandler) (lsr : SearchRequest)
    (dn_parts : List (List Char × List Char)) (users : List User)
    (hparse : parse_distinguished_name lsr.base = .ok dn_parts)
    (hsub : is_subtree dn_parts self.base_dn = true)
    (husers : self.backend_handler.list_users ⟨⟩ = .ok users)
    (hattrs : ∀ a ∈ lsr.attrs, a ∈ projectableAttributes) :
    self.do_search lsr =
      users.map (fun u => LdapMsg.searchResultEntry
        ⟨"cn=".toList ++ u.user_id ++ ",".toList ++ self.base_dn_str,
         lsr.attrs.map (fun a => ⟨a, specAttributeMapping u a⟩)⟩) ++
      [LdapMsg.result .Success []] := by
  have hcoll := collectResults_ok_map
    (fun u => (make_ldap_search_result_entry u self.base_dn_str lsr.attrs).map
      lsr.gen_result_entry)
    (fun u => LdapMsg.searchResultEntry
      ⟨"cn=".toList ++ u.user_id ++ ",".toList ++ self.base_dn_str,
       lsr.attrs.map (fun a => ⟨a, specAttributeMapping u a⟩)⟩) users
    (fun u _ => by
      simp [make_ldap_search_result_entry_ok u self.base_dn_str lsr.attrs hattrs,
        Except.map, SearchRequest.gen_result_entry])
  simp [LdapHandler.do_search, hparse, hsub, husers, hcoll,
    SearchRequest.gen_success]

/-- C3, witness: the repository's own end-to-end scenario (two users, the
six projectable attributes, base `ou=people,dc=example,dc=com`). -/
theorem C3_witness :
    (parse_distinguished_name peopleBase = .ok peopleDnParts ∧
     is_subtree peopleDnParts testHandler.base_dn = true ∧
     testHandler.backend_handler.list_users ⟨⟩ = .ok [bobUser, jimUser] ∧
     ∀ a ∈ projectableAttributes, a ∈ projectableAttributes) ∧
    testHandler.do_search ⟨2, peopleBase, projectableAttributes⟩ =
      [bobUser, jimUser].map (fun u => LdapMsg.searchResultEntry
        ⟨"cn=".toList ++ u.user_id ++ ",".toList ++ testHandler.base_dn_str,
         projectableAttributes.map (fun a => ⟨a, specAttributeMapping u a⟩)⟩) ++
      [LdapMsg.result .Success []] :=
  ⟨⟨rfl, rfl, rfl, fun _ ha => ha⟩,
   C3_search_success testHandler ⟨2, peopleBase, projectableAttributes⟩
     peopleDnParts [bobUser, jimUser] rfl rfl rfl (fun _ ha => ha)⟩

/-- C4: an in-scope search requesting some non-projectable attribute, over
a backend returning at least one user, answers exactly one message: a
no-such-attribute error, with no result entries. -/
theorem C4_unsupported_attribute (self : LdapHandler) (lsr : SearchRequest)
    (dn_parts : List (List Char × List Char)) (users : List User) (a : List Char)
    (hparse : parse_distinguished_name lsr.base = .ok dn_parts)
    (hsub : is_subtree dn_parts self.base_dn = true)
    (husers : self.backend_handler.list_users ⟨⟩ = .ok users)
    (hne : users ≠ [])
    (ha : a ∈ lsr.attrs) (hbad : a ∉ projectableAttributes) :
    ∃ e, self.do_search lsr = [LdapMsg.result .NoSuchAttribute e] := by
  obtain ⟨u0, rest, rfl⟩ := List.exists_cons_of_ne_nil hne
  obtain ⟨e0, he0⟩ :=
    make_ldap_search_result_entry_error u0 self.base_dn_str lsr.attrs a ha hbad
  have hcoll : collectResults
      (fun u => (make_ldap_search_result_entry u self.base_dn_str lsr.attrs).map
        lsr.gen_result_entry) (u0 :: rest) = .error e0 :=
    collectResults_cons_error _ (by simp [he0, Except.map])
  exact ⟨e0, by
    simp [LdapHandler.do_search, hparse, hsub, husers, hcoll,
      SearchRequest.gen_error]⟩

/-- C4, witness: the repository's unsupported-attribute scenario
(`telephoneNumber` against the two-user backend). -/
theorem C4_witness :
    (parse_distinguished_name peopleBase = .ok peopleDnParts ∧
     is_subtree peopleDnParts testHandler.base_dn = true ∧
     testHandler.backend_handler.list_users ⟨⟩ = .ok [bobUser, jimUser] ∧
     ([bobUser, jimUser] : List User) ≠ [] ∧
     "telephoneNumber".toList ∈ ["telephoneNumber".toList] ∧
     "telephoneNumber".toList ∉ projectableAttributes) ∧
    ∃ e, testHandler.do_search ⟨2, peopleBase, ["telephoneNumber".toList]⟩ =
      [LdapMsg.result .NoSuchAttribute e] :=
  ⟨⟨rfl, rfl, rfl, by simp, by simp, by decide⟩,
   C4_unsupported_attribute testHandler
     ⟨2, peopleBase, ["telephoneNumber".toList]⟩ peopleDnParts
     [bobUser, jimUser] "telephoneNumber".toList rfl rfl rfl (by simp)
     (by simp) (by decide)⟩

end Lldap
